import Mathlib

/-!
# magnetico: queue-backed ingestion consumer and the torrents API handler

A shallow embedding of `storage/rabbitmq.go` and of `apiTorrents` /
`parseOrderBy` from `web/torrents.go`.

Every Go function becomes a Lean function that returns the sequence of
externally visible actions it performs (calls into the broker client, the
persistence gateway, the logger, the mutex, the HTTP response writer) together
with its return value.  Results of calls into code outside the two files are
inputs of the model: they are read from an environment or from the event that
drives the iteration.  A Go `error` is an `Option String` (`none` is `nil`).
-/

namespace Storage

/-- A Go byte slice that is not nil. -/
abbrev Bytes := List UInt8

/-- Modelled from the spec: the file descriptor type of the decoded record is
declared outside `rabbitmq.go`; the consumer only passes it through. -/
structure File where
  path : String
  size : Int
  deriving DecidableEq, Repr

/-- Modelled from the spec: `SimpleTorrentSummary` is declared outside
`rabbitmq.go`; the wire schema gives it the fields `infoHash` (string), `name`
(string) and `files` (ordered list of file descriptors). -/
structure SimpleTorrentSummary where
  infoHash : String
  name : String
  files : List File
  deriving DecidableEq, Repr

/-- The zero value of `SimpleTorrentSummary` (`var torrentInfo SimpleTorrentSummary`). -/
def SimpleTorrentSummary.zero : SimpleTorrentSummary :=
  { infoHash := "", name := "", files := [] }

/-- The conversion `[]byte(s)` of a Go string. -/
def stringBytes (s : String) : Bytes := s.toUTF8.data.toList

/-- One `amqp.Delivery`: its body (`none` is the nil slice, as in the zero
delivery read from a closed consume channel) and the results its `Ack` and
`Nack` methods return. -/
structure Delivery where
  body : Option Bytes
  ack : Bool → Option String
  nack : Bool → Bool → Option String

/-- Everything `rabbitmq.go` does that is visible outside the function. -/
inductive Action where
  /-- Go: `r.Lock()` -/
  | lock
  /-- Go: `r.Unlock()` -/
  | unlock
  /-- Go: `time.Sleep(n * time.Second)` -/
  | sleep (seconds : Nat)
  /-- Go: `json.Unmarshal(data, &torrentInfo)` -/
  | unmarshal (data : Bytes)
  /-- Go: `log.Printf("consume msg: %s", msgContent)` -/
  | logConsume (data : Bytes)
  /-- Go: `r.sqlDB.AddNewTorrent(infoHash, name, files)` -/
  | addNewTorrent (infoHash : Bytes) (name : String) (files : List File)
  /-- Go: `log.Printf(err.Error())` after a failed `AddNewTorrent` -/
  | logPersistFailed (err : String)
  /-- Go: `xp.Nack(multiple, requeue)` -/
  | nack (multiple requeue : Bool)
  /-- Go: `xp.Ack(multiple)` -/
  | ack (multiple : Bool)
  /-- Go: `log.Printf("failed to respond to MQ queue acknowledgment message: %s", ..)` -/
  | logAckFailed (err : String)
  /-- entry into `r.connectQueue()` -/
  | connectQueue
  /-- Go: `amqp.Dial(r.mqUrl.String())` -/
  | dial (url : String)
  /-- Go: `r.conn.Channel()` -/
  | channel
  /-- Go: `r.ch.Confirm(noWait)` -/
  | confirm (noWait : Bool)
  /-- Go: `r.ch.Qos(prefetchCount, prefetchSize, global)` -/
  | qos (prefetchCount prefetchSize : Int) (global : Bool)
  /-- Go: `r.ch.Consume(queue, consumer, autoAck, exclusive, noLocal, noWait, amqp.Table{})` -/
  | consume (queue consumer : String) (autoAck exclusive noLocal noWait : Bool)
  /-- Go: `log.Printf("Automatic reconnection to MQ server failed: " + err.Error())` -/
  | logReconnectFailed
  /-- Go: `log.Printf("Successfully reconnected to MQ Server")` -/
  | logReconnected
  /-- Go: `log.Printf("MQ service is online")` -/
  | logOnline
  /-- Go: `context.WithCancel(context.Background())` -/
  | withCancel
  /-- the `go func(rq *rabbitMQ)` statement of `statusListen`: the watchdog starts -/
  | goWatchdog
  /-- Go: `r.sqlDB.connectSqlDB()` -/
  | connectSqlDB (url : String)
  /-- Go: `r.terminationSignal()` -/
  | terminationSignal
  /-- Go: `r.ch.Close()` -/
  | chClose
  /-- Go: `r.conn.Close()` -/
  | connClose
  /-- Go: `r.sqlDB.Close()` -/
  | sqlClose
  deriving DecidableEq, Repr

/-- The collaborators of the consumption loop.  `decode` is
`encoding/json.Unmarshal` on non-empty input: from the bytes and the current
value of the target it gives the value left in the target and the error.
`addNewTorrent` is the persistence gateway: from the state of the store and the
arguments it gives the next state of the store and the error. -/
structure Env (σ : Type) where
  decode : Bytes → SimpleTorrentSummary → SimpleTorrentSummary × Option String
  addNewTorrent : σ → Bytes → String → List File → σ × Option String

/-- The call `json.Unmarshal(data, &torrentInfo)`.  The library validates the
whole input before it stores anything, and empty input is never valid: it is
rejected with a syntax error and the target is left as it was. -/
def jsonUnmarshal {σ : Type} (env : Env σ) (data : Bytes) (torrentInfo : SimpleTorrentSummary) :
    SimpleTorrentSummary × Option String :=
  if data.isEmpty then (torrentInfo, some "unexpected end of JSON input")
  else env.decode data torrentInfo

/-- The variables of `handlerTorrent` that live across iterations of its loop:
`torrentInfo` is declared before the `for`, and the store behind `r.sqlDB`. -/
structure LoopState (σ : Type) where
  torrentInfo : SimpleTorrentSummary
  db : σ

/-- The body of `case xp := <-*r.consumeChan:` in `handlerTorrent`
(lines 111-137): the state after the iteration and the actions performed. -/
def processDelivery {σ : Type} (env : Env σ) (s : LoopState σ) (xp : Delivery) :
    LoopState σ × List Action :=
  match xp.body with
  | none => (s, [.lock, .sleep 13, .unlock])
  | some msgContent =>
    let r := jsonUnmarshal env msgContent s.torrentInfo
    match r.2 with
    | some _ =>
      ({ s with torrentInfo := r.1 },
        [.lock, .unmarshal msgContent, .nack false false, .unlock])
    | none =>
      let infoHash := stringBytes r.1.infoHash
      let p := env.addNewTorrent s.db infoHash r.1.name r.1.files
      match p.2 with
      | some e =>
        ({ torrentInfo := r.1, db := p.1 },
          [.lock, .unmarshal msgContent, .logConsume msgContent,
            .addNewTorrent infoHash r.1.name r.1.files, .logPersistFailed e,
            .nack false true, .unlock])
      | none =>
        match xp.ack false with
        | some e =>
          ({ torrentInfo := r.1, db := p.1 },
            [.lock, .unmarshal msgContent, .logConsume msgContent,
              .addNewTorrent infoHash r.1.name r.1.files, .ack false,
              .logAckFailed e, .unlock])
        | none =>
          ({ torrentInfo := r.1, db := p.1 },
            [.lock, .unmarshal msgContent, .logConsume msgContent,
              .addNewTorrent infoHash r.1.name r.1.files, .ack false, .unlock])

/-- What the `select` of a background loop receives: a value from its
channel, or the shutdown signal `iStop.Done()`. -/
inductive Wake (α : Type) where
  | recv (x : α)
  | stop

/-- The loop of `handlerTorrent` from a given state, driven by the sequence of
wake-ups of its `select`.  When the sequence is used up the loop is blocked in
`select`. -/
def handlerLoop {σ : Type} (env : Env σ) : LoopState σ → List (Wake Delivery) →
    LoopState σ × List Action
  | s, [] => (s, [])
  | s, .stop :: _ => (s, [])
  | s, .recv xp :: rest =>
    let r := processDelivery env s xp
    let t := handlerLoop env r.1 rest
    (t.1, r.2 ++ t.2)

/-- Go: `func (r *rabbitMQ) handlerTorrent()`: `torrentInfo` starts as the zero
value, then the loop runs. -/
def handlerTorrent {σ : Type} (env : Env σ) (db : σ) (wakes : List (Wake Delivery)) :
    LoopState σ × List Action :=
  handlerLoop env { torrentInfo := SimpleTorrentSummary.zero, db := db } wakes

/-- Go: `consumeQos` -/
structure ConsumeQos where
  prefetchCount : Int
  prefetchSize : Int
  global : Bool
  deriving DecidableEq, Repr

/-- Go: `func (r *rabbitMQ) setConsumeQos()` -/
def setConsumeQos : ConsumeQos :=
  { prefetchCount := 1, prefetchSize := 0, global := true }

/-- The errors returned by the five broker calls of one `connectQueue`. -/
structure QueueOutcome where
  dial : Option String
  channel : Option String
  confirm : Option String
  qos : Option String
  consume : Option String

/-- Go: `func (r *rabbitMQ) connectQueue() (err error)`: the actions performed and
the error returned. -/
def connectQueue (mqUrl : String) (o : QueueOutcome) : List Action × Option String :=
  match o.dial with
  | some e => ([.connectQueue, .dial mqUrl], some e)
  | none =>
    match o.channel with
    | some e => ([.connectQueue, .dial mqUrl, .channel], some e)
    | none =>
      match o.confirm with
      | some e => ([.connectQueue, .dial mqUrl, .channel, .confirm false], some e)
      | none =>
        let getConsumeQos := setConsumeQos
        let q := Action.qos getConsumeQos.prefetchCount getConsumeQos.prefetchSize
          getConsumeQos.global
        match o.qos with
        | some e => ([.connectQueue, .dial mqUrl, .channel, .confirm false, q], some e)
        | none =>
          ([.connectQueue, .dial mqUrl, .channel, .confirm false, q,
            .consume "magnetico" "storage" false false false false], o.consume)

/-- What the watchdog finds on one tick of its ticker: whether the channel and
the connection are closed, and how a reconnection started now would go. -/
structure Tick where
  chClosed : Bool
  connClosed : Bool
  reconnect : QueueOutcome

/-- The body of `case <-checkInterval:` in `statusListen` (lines 152-164). -/
def statusListenTick (mqUrl : String) (t : Tick) : List Action :=
  if t.chClosed || t.connClosed then
    let c := connectQueue mqUrl t.reconnect
    match c.2 with
    | some _ => [.lock, .logReconnectFailed] ++ c.1 ++ [.unlock]
    | none => [.lock, .logReconnectFailed] ++ c.1 ++ [.logReconnected, .unlock]
  else
    [.lock, .logOnline, .unlock]

/-- The goroutine started by `statusListen`, driven by the wake-ups of its
`select`. -/
def statusListenLoop (mqUrl : String) : List (Wake Tick) → List Action
  | [] => []
  | .stop :: _ => []
  | .recv t :: rest => statusListenTick mqUrl t ++ statusListenLoop mqUrl rest

/-- Go: `func (r *rabbitMQ) statusListen()`: starts the watchdog goroutine and
returns. -/
def statusListen : List Action := [.goWatchdog]

/-- Go: `func makeRabbitMQ(mqUrl_, sqlUrl_ *url.URL) (PersistentStorageServer, error)`:
the actions performed and the error returned (`none`: the server `r` is
returned).  `sql` is the error of `r.sqlDB.connectSqlDB()`. -/
def makeRabbitMQ (mqUrl sqlUrl : String) (queue : QueueOutcome) (sql : Option String) :
    List Action × Option String :=
  let c := connectQueue mqUrl queue
  match c.2 with
  | some e => ([.withCancel] ++ c.1, some e)
  | none =>
    match sql with
    | some e => ([.withCancel] ++ c.1 ++ statusListen ++ [.connectSqlDB sqlUrl], some e)
    | none => ([.withCancel] ++ c.1 ++ statusListen ++ [.connectSqlDB sqlUrl], none)

/-- Go: `func (r *rabbitMQ) Close() (err error)`: the actions performed and the
error returned, from the errors the three close calls return when called. -/
def Close (ch conn sql : Option String) : List Action × Option String :=
  match ch with
  | some e => ([.terminationSignal, .chClose], some e)
  | none =>
    match conn with
    | some e => ([.terminationSignal, .chClose, .connClose], some e)
    | none =>
      match sql with
      | some e => ([.terminationSignal, .chClose, .connClose, .sqlClose], some e)
      | none => ([.terminationSignal, .chClose, .connClose, .sqlClose], none)

/-! ## Reading a sequence of actions -/

/-- The `multiple` arguments of the `Ack` calls, in order. -/
def acks : List Action → List Bool
  | [] => []
  | .ack m :: rest => m :: acks rest
  | _ :: rest => acks rest

/-- The `(multiple, requeue)` arguments of the `Nack` calls, in order. -/
def nacks : List Action → List (Bool × Bool)
  | [] => []
  | .nack m q :: rest => (m, q) :: nacks rest
  | _ :: rest => nacks rest

/-- The arguments of the `AddNewTorrent` calls, in order. -/
def addCalls : List Action → List (Bytes × String × List File)
  | [] => []
  | .addNewTorrent h n f :: rest => (h, n, f) :: addCalls rest
  | _ :: rest => addCalls rest

/-- The durations of the `time.Sleep` calls in seconds, in order. -/
def sleeps : List Action → List Nat
  | [] => []
  | .sleep n :: rest => n :: sleeps rest
  | _ :: rest => sleeps rest

/-- Go: `len(xp.Body)`: a nil slice has length zero. -/
def Delivery.bodyLen (xp : Delivery) : Nat :=
  match xp.body with
  | none => 0
  | some data => data.length

/-- The bytes of `xp.Body` as `json.Unmarshal` reads them: a nil slice is read
as the empty input. -/
def Delivery.bytes (xp : Delivery) : Bytes :=
  match xp.body with
  | none => []
  | some data => data

/-! ## Sample collaborators for the concrete runs -/

/-- The bytes of the JSON object with `infoHash` "aa", `name` "a" and an empty
`files` array, written without spaces in that order of keys (39 bytes). -/
def bodyFull : Bytes :=
  [123, 34, 105, 110, 102, 111, 72, 97, 115, 104, 34, 58, 34, 97, 97, 34, 44, 34, 110, 97,
   109, 101, 34, 58, 34, 97, 34, 44, 34, 102, 105, 108, 101, 115, 34, 58, 91, 93, 125]

/-- The bytes of the JSON text `null`. -/
def bodyNull : Bytes := [110, 117, 108, 108]

/-- The bytes of the JSON object whose only key is `name`, with value "b". -/
def bodyNameOnly : Bytes := [123, 34, 110, 97, 109, 101, 34, 58, 34, 98, 34, 125]

/-- The bytes of the text `not-json`. -/
def bodyNotJson : Bytes := [110, 111, 116, 45, 106, 115, 111, 110]

/-- What `json.Unmarshal` into a `SimpleTorrentSummary` does on the sample
bodies: `bodyFull` stores all three fields; `null` is valid JSON, and
unmarshalling null into a struct "has no effect on the value and produces no
error" (package documentation of `encoding/json`); an object with the key
`name` alone stores `name` and leaves the other fields as they were.  Every
other input is treated like `not-json`, a syntax error that stores nothing; the
runs below use only the four sample bodies. -/
def sampleDecode (data : Bytes) (v : SimpleTorrentSummary) :
    SimpleTorrentSummary × Option String :=
  if data = bodyFull then ({ infoHash := "aa", name := "a", files := [] }, none)
  else if data = bodyNull then (v, none)
  else if data = bodyNameOnly then ({ v with name := "b" }, none)
  else (v, some "invalid character")

/-- A persistence gateway whose store is either reachable (`true`) or not:
`AddNewTorrent` succeeds exactly when it is. -/
def sampleAdd (up : Bool) (_infoHash : Bytes) (_name : String) (_files : List File) :
    Bool × Option String :=
  if up then (up, none) else (up, some "sql: database is closed")

/-- The sample collaborators. -/
def sampleEnv : Env Bool := { decode := sampleDecode, addNewTorrent := sampleAdd }

/-- A delivery with the given body whose `Ack` and `Nack` succeed. -/
def deliveryOf (body : Option Bytes) : Delivery :=
  { body := body, ack := fun _ => none, nack := fun _ _ => none }

/-- A delivery with the given body whose `Ack` fails. -/
def deliveryAckFails (body : Option Bytes) : Delivery :=
  { body := body, ack := fun _ => some "channel/connection is not open", nack := fun _ _ => none }

/-- The start of the loop of `handlerTorrent` over a store in the given state. -/
def startState (up : Bool) : LoopState Bool :=
  { torrentInfo := SimpleTorrentSummary.zero, db := up }

/-- A reconnection in which every broker call succeeds. -/
def queueUp : QueueOutcome :=
  { dial := none, channel := none, confirm := none, qos := none, consume := none }

/-- What `json.Unmarshal` returns when it is given the body of `xp` in the
state `s`: the value left in `torrentInfo` and the error. -/
def decodeOf {σ : Type} (env : Env σ) (s : LoopState σ) (xp : Delivery) :
    SimpleTorrentSummary × Option String :=
  jsonUnmarshal env xp.bytes s.torrentInfo

/-- What `AddNewTorrent` returns when it is given the record decoded from the
body of `xp` in the state `s`. -/
def persistOf {σ : Type} (env : Env σ) (s : LoopState σ) (xp : Delivery) : σ × Option String :=
  env.addNewTorrent s.db (stringBytes (decodeOf env s xp).1.infoHash)
    (decodeOf env s xp).1.name (decodeOf env s xp).1.files

/-- The log line written when `Ack` returns an error. -/
def ackLog (xp : Delivery) : List Action :=
  match xp.ack false with
  | some e => [.logAckFailed e]
  | none => []

/-- The first error in a sequence of results. -/
def firstError : List (Option String) → Option String
  | [] => none
  | some e :: _ => some e
  | none :: rest => firstError rest

/-! ## The two background goroutines running together -/

/-- The two goroutines that use the lock of `rabbitMQ`: `handlerTorrent` and
the watchdog started by `statusListen`. -/
inductive Task where
  | consumer
  | watchdog
  deriving DecidableEq, Repr

/-- One goroutine: the actions it has performed, latest first, and the actions
it has still to perform, next first. -/
structure Thread where
  done : List Action
  todo : List Action
  deriving DecidableEq, Repr

/-- Whether the goroutine with this history (latest action first) is between a
`Lock()` and the `Unlock()` that follows it. -/
def holding : List Action → Bool
  | [] => false
  | a :: rest => if a = .lock then true else if a = .unlock then false else holding rest

/-- One step of a goroutine against `sync.Mutex`: `Lock()` can be performed
only when the mutex is unlocked (otherwise the goroutine is blocked) and locks
it; `Unlock()` unlocks it and is a fatal error on an unlocked mutex; all other
actions leave the mutex alone.  The result is `none` when the goroutine cannot
step. -/
def Thread.step (th : Thread) (locked : Bool) : Option (Thread × Bool) :=
  match th.todo with
  | [] => none
  | a :: rest =>
    if a = .lock then
      if locked then none else some ({ done := a :: th.done, todo := rest }, true)
    else if a = .unlock then
      if locked then some ({ done := a :: th.done, todo := rest }, false) else none
    else some ({ done := a :: th.done, todo := rest }, locked)

/-- The two goroutines and the mutex they share. -/
structure Sys where
  consumer : Thread
  watchdog : Thread
  locked : Bool
  deriving DecidableEq, Repr

/-- The scheduler lets one goroutine perform its next action. -/
def Sys.step (s : Sys) : Task → Option Sys
  | .consumer =>
    match s.consumer.step s.locked with
    | none => none
    | some r => some { s with consumer := r.1, locked := r.2 }
  | .watchdog =>
    match s.watchdog.step s.locked with
    | none => none
    | some r => some { s with watchdog := r.1, locked := r.2 }

/-- An interleaving: the scheduler's choices, one after the other.  The result
is `none` when a chosen goroutine cannot step. -/
def Sys.run (s : Sys) : List Task → Option Sys
  | [] => some s
  | t :: rest =>
    match s.step t with
    | none => none
    | some s2 => s2.run rest

/-- Both goroutines at their start, the mutex unlocked: `handlerTorrent` driven
by `wakes`, the watchdog driven by `ticks`.  What each goroutine receives and
what its calls return is arbitrary, so every run of the two is an interleaving
of the action sequences of some `wakes` and `ticks`. -/
def Sys.start {σ : Type} (env : Env σ) (db : σ) (wakes : List (Wake Delivery))
    (mqUrl : String) (ticks : List (Wake Tick)) : Sys :=
  { consumer := { done := [], todo := (handlerTorrent env db wakes).2 },
    watchdog := { done := [], todo := statusListenLoop mqUrl ticks },
    locked := false }

/-- Whether a sequence of actions, started inside (`true`) or outside
(`false`) a critical section, is a sequence of sections `Lock() .. Unlock()`
with no action outside a section and no `Lock()` inside one, and ends outside. -/
def bracketed : Bool → List Action → Bool
  | inside, [] => !inside
  | inside, a :: rest =>
    if a = .lock then !inside && bracketed true rest
    else if a = .unlock then inside && bracketed false rest
    else inside && bracketed inside rest

/-- The steps of processing one delivery: the pause on a nil body, the decode,
`AddNewTorrent`, `Ack`/`Nack` and their log lines. -/
def Action.isProcessing : Action → Bool
  | .sleep _ => true
  | .unmarshal _ => true
  | .logConsume _ => true
  | .addNewTorrent _ _ _ => true
  | .logPersistFailed _ => true
  | .nack _ _ => true
  | .ack _ => true
  | .logAckFailed _ => true
  | _ => false

/-- The steps of one reconnection attempt: `connectQueue` and the broker calls
it makes. -/
def Action.isReconnect : Action → Bool
  | .connectQueue => true
  | .dial _ => true
  | .channel => true
  | .confirm _ => true
  | .qos _ _ _ => true
  | .consume _ _ _ _ _ _ => true
  | _ => false

/-- The invariant of the two goroutines: what each has still to do is a
sequence of critical sections continued from where it stands, the mutex is
locked exactly when one of them is inside a section, and they are not both
inside. -/
def Sys.Inv (s : Sys) : Prop :=
  bracketed (holding s.consumer.done) s.consumer.todo = true ∧
    bracketed (holding s.watchdog.done) s.watchdog.todo = true ∧
    s.locked = (holding s.consumer.done || holding s.watchdog.done) ∧
    (holding s.consumer.done && holding s.watchdog.done) = false

/-- A tick that finds the channel closed and whose reconnection succeeds. -/
def tickClosed : Tick := { chClosed := true, connClosed := false, reconnect := queueUp }

/-- The sample system: one delivery with the body `bodyFull` for the consumer,
one tick that finds the channel closed for the watchdog. -/
def sampleSys : Sys :=
  Sys.start sampleEnv true [.recv (deliveryOf (some bodyFull))] "amqp://localhost"
    [.recv tickClosed]

/-- The sample system after the consumer has taken the lock, decoded the body
and logged it. -/
def sampleMid : Sys :=
  { consumer :=
      { done := [.logConsume bodyFull, .unmarshal bodyFull, .lock],
        todo := [.addNewTorrent (stringBytes "aa") "a" [], .ack false, .unlock] },
    watchdog := { done := [], todo := statusListenLoop "amqp://localhost" [.recv tickClosed] },
    locked := true }

end Storage

namespace Web

/-- The type `url.Values`, as the key/value pairs in the order they were parsed. -/
abbrev Values := List (String × String)

/-- Go: `func (v Values) Get(key string) string`: the first value of the key, or
the empty string. -/
def Values.Get (v : Values) (key : String) : String :=
  match v with
  | [] => ""
  | (k, x) :: rest => if k = key then x else Values.Get rest key

/-- Go: `func (v Values) Has(key string) bool` -/
def Values.Has (v : Values) (key : String) : Bool :=
  match v with
  | [] => false
  | (k, _) :: rest => if k = key then true else Values.Has rest key

/-- Modelled from the spec: `persistence.OrderingCriteria` is declared outside
`torrents.go`; these are the constants the file names. -/
inductive OrderingCriteria where
  | ByRelevance
  | ByTotalSize
  | ByDiscoveredOn
  | ByNFiles
  | ByUpdatedOn
  | ByNSeeders
  | ByNLeechers
  deriving DecidableEq, Repr

/-- Go: `func parseOrderBy(s string) (persistence.OrderingCriteria, error)` -/
def parseOrderBy (s : String) : OrderingCriteria × Option String :=
  if s = "RELEVANCE" then (.ByRelevance, none)
  else if s = "TOTAL_SIZE" then (.ByTotalSize, none)
  else if s = "DISCOVERED_ON" then (.ByDiscoveredOn, none)
  else if s = "N_FILES" then (.ByNFiles, none)
  else if s = "UPDATED_ON" then (.ByUpdatedOn, none)
  else if s = "N_SEEDERS" then (.ByNSeeders, none)
  else if s = "N_LEECHERS" then (.ByNLeechers, none)
  else (.ByDiscoveredOn, some ("unknown orderBy string: " ++ s))

/-- What `apiTorrents` reads from `*http.Request`: the pairs of
`r.URL.Query()`, the error of `r.ParseForm()` and the pairs of `r.Form` after
it. -/
structure Request where
  urlQuery : Values
  parseForm : Option String
  form : Values

/-- The library and database calls of `apiTorrents`.  `F` is `float64` and `R`
is the result type of `database.QueryTorrents`. -/
structure Env (F R : Type) where
  /-- Go: `time.Now().Unix()` -/
  now : Int
  /-- Go: `strconv.ParseInt(s, 10, 64)` -/
  parseInt : String → Except String Int
  /-- Go: `strconv.ParseBool(s)` -/
  parseBool : String → Except String Bool
  /-- Go: `strconv.ParseFloat(s, 64)` -/
  parseFloat : String → Except String F
  /-- Go: `strconv.ParseUint(s, 10, 64)` -/
  parseUint : String → Except String Nat
  /-- Go: `database.QueryTorrents(query, epoch, orderBy, ascending, limit, lastOrderedValue, lastID)` -/
  queryTorrents : String → Int → OrderingCriteria → Bool → Nat → Option F → Option Nat →
    Except String R
  /-- the error of `json.NewEncoder(w).Encode(torrents)` -/
  encode : R → Option String

/-- What `apiTorrents` does to the response writer and the database. -/
inductive Effect (F R : Type) where
  /-- Go: `http.Error(w, msg, code)` -/
  | httpError (msg : String) (code : Nat)
  /-- Go: `database.QueryTorrents(..)` -/
  | queryTorrents (query : String) (epoch : Int) (orderBy : OrderingCriteria)
      (ascending : Bool) (limit : Nat) (lastOrderedValue : Option F) (lastID : Option Nat)
  /-- Go: `w.Header().Set(ContentType, ContentTypeJson)` -/
  | setContentTypeJson
  /-- Go: `json.NewEncoder(w).Encode(torrents)` -/
  | encode (torrents : R)
  /-- Go: `w.WriteHeader(code)` -/
  | writeHeader (code : Nat)

/-- Go: `http.StatusBadRequest` -/
def StatusBadRequest : Nat := 400

/-- Go: `http.StatusInternalServerError` -/
def StatusInternalServerError : Nat := 500

/-- Lines 187-198 of `apiTorrents`: the query and the response. -/
def respond {F R : Type} (env : Env F R) (query : String) (epoch : Int)
    (orderBy : OrderingCriteria) (ascending : Bool) (limit : Nat)
    (lastOrderedValue : Option F) (lastID : Option Nat) : List (Effect F R) :=
  match env.queryTorrents query epoch orderBy ascending limit lastOrderedValue lastID with
  | .error e =>
    [.queryTorrents query epoch orderBy ascending limit lastOrderedValue lastID,
      .httpError ("QueryTorrents: " ++ e) StatusInternalServerError]
  | .ok torrents =>
    match env.encode torrents with
    | some _ =>
      [.queryTorrents query epoch orderBy ascending limit lastOrderedValue lastID,
        .setContentTypeJson, .encode torrents, .writeHeader StatusInternalServerError]
    | none =>
      [.queryTorrents query epoch orderBy ascending limit lastOrderedValue lastID,
        .setContentTypeJson, .encode torrents]

/-- Lines 149-198 of `apiTorrents`: what follows the `orderBy` block. -/
def afterOrderBy {F R : Type} (env : Env F R) (r : Request) (query : String) (epoch : Int)
    (orderBy : OrderingCriteria) : List (Effect F R) :=
  match (if r.form.Has "ascending" then env.parseBool (r.form.Get "ascending")
      else .ok true) with
  | .error e => [.httpError ("error while parsing the URL: " ++ e) StatusBadRequest]
  | .ok ascending =>
    match (if r.form.Has "lastOrderedValue" then
        (env.parseFloat (r.form.Get "lastOrderedValue")).map some else .ok none) with
    | .error e => [.httpError ("error while parsing the URL: " ++ e) StatusBadRequest]
    | .ok lastOrderedValue =>
      match (if r.form.Has "lastID" then (env.parseUint (r.form.Get "lastID")).map some
          else .ok none) with
      | .error e => [.httpError ("error while parsing the URL: " ++ e) StatusBadRequest]
      | .ok lastID =>
        match (if r.form.Has "limit" then env.parseUint (r.form.Get "limit") else .ok 20) with
        | .error e => [.httpError ("error while parsing the URL: " ++ e) StatusBadRequest]
        | .ok limit => respond env query epoch orderBy ascending limit lastOrderedValue lastID

/-- Go: `func apiTorrents(w http.ResponseWriter, r *http.Request)`: what the
handler does, in order. -/
def apiTorrents {F R : Type} (env : Env F R) (r : Request) : List (Effect F R) :=
  let q := r.urlQuery
  if !((q.Get "lastOrderedValue" != "" && q.Get "lastID" != "") ||
      (q.Get "lastOrderedValue" == "" && q.Get "lastID" == "")) then
    [.httpError "`lastOrderedValue`, `lastID` must be supplied altogether, if supplied."
      StatusBadRequest]
  else
    match r.parseForm with
    | some e => [.httpError ("error while parsing the URL: " ++ e) StatusBadRequest]
    | none =>
      match (if r.form.Has "epoch" then env.parseInt (r.form.Get "epoch")
          else .ok env.now) with
      | .error e => [.httpError ("error while parsing the URL: " ++ e) StatusBadRequest]
      | .ok epoch =>
        let query := r.form.Get "query"
        let orderByText := r.form.Get "orderBy"
        if orderByText = "" then
          if query = "" then afterOrderBy env r query epoch .ByDiscoveredOn
          else afterOrderBy env r query epoch .ByRelevance
        else
          match parseOrderBy orderByText with
          | (orderBy, some e) =>
            .httpError ("error while parsing the URL: " ++ e) StatusBadRequest ::
              afterOrderBy env r query epoch orderBy
          | (orderBy, none) => afterOrderBy env r query epoch orderBy

/-- Whether the handler wrote a 400 Bad Request error. -/
def wroteBadRequest {F R : Type} : List (Effect F R) → Bool
  | [] => false
  | .httpError _ code :: rest => code == StatusBadRequest || wroteBadRequest rest
  | _ :: rest => wroteBadRequest rest

/-- The number of `database.QueryTorrents` calls. -/
def queryCalls {F R : Type} : List (Effect F R) → Nat
  | [] => 0
  | .queryTorrents _ _ _ _ _ _ _ :: rest => queryCalls rest + 1
  | _ :: rest => queryCalls rest

/-- The request `/api/v0.1/torrents?orderBy=BOGUS`: its only parameter is an
`orderBy` that `parseOrderBy` does not know. -/
def bogusOrderBy : Request :=
  { urlQuery := [("orderBy", "BOGUS")], parseForm := none, form := [("orderBy", "BOGUS")] }

/-- Sample library calls: every `strconv` call fails, the database returns no
rows and the encoder succeeds. -/
def sampleEnv : Env Unit (List String) :=
  { now := 1700000000,
    parseInt := fun _ => .error "strconv.ParseInt: invalid syntax",
    parseBool := fun _ => .error "strconv.ParseBool: invalid syntax",
    parseFloat := fun _ => .error "strconv.ParseFloat: invalid syntax",
    parseUint := fun _ => .error "strconv.ParseUint: invalid syntax",
    queryTorrents := fun _ _ _ _ _ _ _ => .ok [],
    encode := fun _ => none }

/-- The request `/api/v0.1/torrents?limit=many`: `orderBy` is absent and
`limit` is not a number. -/
def badLimit : Request :=
  { urlQuery := [("limit", "many")], parseForm := none, form := [("limit", "many")] }

end Web

/-! # Theorems -/

namespace Storage

/-! ## The consumption loop -/

theorem jsonUnmarshal_nil {σ : Type} (env : Env σ) (v : SimpleTorrentSummary) :
    jsonUnmarshal env [] v = (v, some "unexpected end of JSON input") := rfl

/-- C1: in `handlerTorrent`, a delivery whose body decodes without error and
for which `AddNewTorrent` returns no error is handled by one call of
`AddNewTorrent` with the decoded `infoHash` bytes, `name` and `files`, followed
by one `Ack(false)`, with no `Nack`; an error returned by `Ack` only adds a log
line. -/
theorem processDelivery_success {σ : Type} (env : Env σ) (s : LoopState σ) (xp : Delivery)
    (hdec : (decodeOf env s xp).2 = none) (hadd : (persistOf env s xp).2 = none) :
    (processDelivery env s xp).2 =
        [.lock, .unmarshal xp.bytes, .logConsume xp.bytes,
          .addNewTorrent (stringBytes (decodeOf env s xp).1.infoHash)
            (decodeOf env s xp).1.name (decodeOf env s xp).1.files,
          .ack false] ++ ackLog xp ++ [.unlock] ∧
      addCalls (processDelivery env s xp).2 =
        [(stringBytes (decodeOf env s xp).1.infoHash, (decodeOf env s xp).1.name,
          (decodeOf env s xp).1.files)] ∧
      acks (processDelivery env s xp).2 = [false] ∧
      nacks (processDelivery env s xp).2 = [] := by
  unfold persistOf at hadd
  unfold decodeOf at hdec hadd ⊢
  cases hb : xp.body with
  | none =>
    simp [Delivery.bytes, hb, jsonUnmarshal] at hdec
  | some data =>
    simp only [Delivery.bytes, hb] at hdec hadd ⊢
    cases hk : xp.ack false <;>
      simp [processDelivery, hb, hdec, hadd, hk, ackLog, addCalls, acks, nacks]

/-- C2: in `handlerTorrent`, a delivery whose body is handed to
`json.Unmarshal` (the body is not nil, line 113) and fails to decode gets one
`Nack(false, false)`, no `Ack`, and `AddNewTorrent` is not called. -/
theorem processDelivery_decode_failure {σ : Type} (env : Env σ) (s : LoopState σ)
    (xp : Delivery) (hbody : xp.body ≠ none) (hdec : (decodeOf env s xp).2 ≠ none) :
    (processDelivery env s xp).2 =
        [.lock, .unmarshal xp.bytes, .nack false false, .unlock] ∧
      nacks (processDelivery env s xp).2 = [(false, false)] ∧
      acks (processDelivery env s xp).2 = [] ∧
      addCalls (processDelivery env s xp).2 = [] := by
  unfold decodeOf at hdec
  cases hb : xp.body with
  | none => exact absurd hb hbody
  | some data =>
    simp only [Delivery.bytes, hb] at hdec ⊢
    cases hr : (jsonUnmarshal env data s.torrentInfo).2 with
    | none => exact absurd hr hdec
    | some e => simp [processDelivery, hb, hr, addCalls, acks, nacks]

/-- C3: in `handlerTorrent`, a delivery whose body decodes without error but
for which `AddNewTorrent` returns an error gets one `Nack(false, true)` and no
`Ack`. -/
theorem processDelivery_persist_failure {σ : Type} (env : Env σ) (s : LoopState σ)
    (xp : Delivery) (hdec : (decodeOf env s xp).2 = none)
    (hadd : (persistOf env s xp).2 ≠ none) :
    nacks (processDelivery env s xp).2 = [(false, true)] ∧
      acks (processDelivery env s xp).2 = [] ∧
      addCalls (processDelivery env s xp).2 =
        [(stringBytes (decodeOf env s xp).1.infoHash, (decodeOf env s xp).1.name,
          (decodeOf env s xp).1.files)] := by
  unfold persistOf at hadd
  unfold decodeOf at hdec hadd ⊢
  cases hb : xp.body with
  | none =>
    simp [Delivery.bytes, hb, jsonUnmarshal] at hdec
  | some data =>
    simp only [Delivery.bytes, hb] at hdec hadd ⊢
    cases hp : (env.addNewTorrent s.db (stringBytes (jsonUnmarshal env data s.torrentInfo).1.infoHash)
        (jsonUnmarshal env data s.torrentInfo).1.name
        (jsonUnmarshal env data s.torrentInfo).1.files).2 with
    | none => exact absurd hp hadd
    | some e => simp [processDelivery, hb, hdec, hp, addCalls, acks, nacks]

theorem processDelivery_success_witness :
    (decodeOf sampleEnv (startState true) (deliveryAckFails (some bodyFull))).2 = none ∧
      (persistOf sampleEnv (startState true) (deliveryAckFails (some bodyFull))).2 = none ∧
      addCalls (processDelivery sampleEnv (startState true)
        (deliveryAckFails (some bodyFull))).2 = [(stringBytes "aa", "a", [])] ∧
      acks (processDelivery sampleEnv (startState true)
        (deliveryAckFails (some bodyFull))).2 = [false] ∧
      nacks (processDelivery sampleEnv (startState true)
        (deliveryAckFails (some bodyFull))).2 = [] :=
  ⟨by decide, by decide,
    (processDelivery_success sampleEnv (startState true) (deliveryAckFails (some bodyFull))
      (by decide) (by decide)).2⟩

theorem processDelivery_decode_failure_witness :
    (deliveryOf (some bodyNotJson)).body ≠ none ∧
      (decodeOf sampleEnv (startState true) (deliveryOf (some bodyNotJson))).2 ≠ none ∧
      (processDelivery sampleEnv (startState true) (deliveryOf (some bodyNotJson))).2 =
        [.lock, .unmarshal bodyNotJson, .nack false false, .unlock] :=
  ⟨by decide, by decide,
    (processDelivery_decode_failure sampleEnv (startState true) (deliveryOf (some bodyNotJson))
      (by decide) (by decide)).1⟩

theorem processDelivery_persist_failure_witness :
    (decodeOf sampleEnv (startState false) (deliveryOf (some bodyFull))).2 = none ∧
      (persistOf sampleEnv (startState false) (deliveryOf (some bodyFull))).2 ≠ none ∧
      nacks (processDelivery sampleEnv (startState false)
        (deliveryOf (some bodyFull))).2 = [(false, true)] ∧
      acks (processDelivery sampleEnv (startState false)
        (deliveryOf (some bodyFull))).2 = [] :=
  ⟨by decide, by decide,
    (processDelivery_persist_failure sampleEnv (startState false) (deliveryOf (some bodyFull))
      (by decide) (by decide)).1,
    (processDelivery_persist_failure sampleEnv (startState false) (deliveryOf (some bodyFull))
      (by decide) (by decide)).2.1⟩

/-- C4, the code at a failing input: the body `null` decodes without error and
stores nothing, so the arguments of `AddNewTorrent` for it are whatever
`torrentInfo` holds.  As the first delivery they are the zero record; after a
delivery that carried the record "aa"/"a" they are that earlier record, which is
persisted a second time and acknowledged. -/
theorem handlerTorrent_null_body_carries_over :
    (decodeOf sampleEnv (startState true) (deliveryOf (some bodyNull))).2 = none ∧
      addCalls (handlerTorrent sampleEnv true [.recv (deliveryOf (some bodyNull))]).2 =
        [(stringBytes "", "", [])] ∧
      addCalls (handlerTorrent sampleEnv true
          [.recv (deliveryOf (some bodyFull)), .recv (deliveryOf (some bodyNull))]).2 =
        [(stringBytes "aa", "a", []), (stringBytes "aa", "a", [])] ∧
      acks (handlerTorrent sampleEnv true
          [.recv (deliveryOf (some bodyFull)), .recv (deliveryOf (some bodyNull))]).2 =
        [false, false] ∧
      stringBytes "aa" ≠ stringBytes "" := by
  decide

/-- C5, the claim fails at a body that is empty but not nil: its length is
zero, the guard `msgContent == nil` does not hold, `json.Unmarshal` rejects the
empty input and the delivery gets `Nack(false, false)`, with no pause. -/
theorem processDelivery_empty_body_is_nacked :
    (deliveryOf (some [])).bodyLen = 0 ∧
      (processDelivery sampleEnv (startState true) (deliveryOf (some []))).2 =
        [.lock, .unmarshal [], .nack false false, .unlock] ∧
      nacks (processDelivery sampleEnv (startState true) (deliveryOf (some []))).2 ≠ [] ∧
      sleeps (processDelivery sampleEnv (startState true) (deliveryOf (some []))).2 = [] := by
  decide

/-- C5 as amended: in `handlerTorrent`, a delivery whose body is nil gets
neither `Ack` nor `Nack`, `json.Unmarshal` and `AddNewTorrent` are not called;
the loop takes the lock, sleeps 13 seconds, releases the lock and goes back to
its `select` with its state unchanged. -/
theorem processDelivery_nil_body {σ : Type} (env : Env σ) (s : LoopState σ) (xp : Delivery)
    (hbody : xp.body = none) :
    (processDelivery env s xp).2 = [.lock, .sleep 13, .unlock] ∧
      acks (processDelivery env s xp).2 = [] ∧
      nacks (processDelivery env s xp).2 = [] ∧
      addCalls (processDelivery env s xp).2 = [] ∧
      (processDelivery env s xp).1 = s ∧
      ∀ rest : List (Wake Delivery),
        (handlerLoop env s (.recv xp :: rest)).2 =
          [.lock, .sleep 13, .unlock] ++ (handlerLoop env s rest).2 := by
  simp [processDelivery, handlerLoop, hbody, acks, nacks, addCalls]

theorem processDelivery_nil_body_witness :
    (deliveryOf none).body = none ∧
      (processDelivery sampleEnv (startState true) (deliveryOf none)).2 =
        [.lock, .sleep 13, .unlock] :=
  ⟨rfl, (processDelivery_nil_body sampleEnv (startState true) (deliveryOf none) rfl).1⟩

/-! ## Teardown -/

/-- C6: `Close` triggers the shutdown signal first, then closes the channel,
the connection and the persistence gateway in this order; a later close is
attempted exactly when all earlier ones returned no error, and the result is
the first error, which is nil exactly when all three calls succeed. -/
theorem Close_stops_at_first_failure (ch conn sql : Option String) :
    (Close ch conn sql).1.head? = some Action.terminationSignal ∧
      (Close ch conn sql).1 <+:
        [Action.terminationSignal, Action.chClose, Action.connClose, Action.sqlClose] ∧
      Action.chClose ∈ (Close ch conn sql).1 ∧
      (Action.connClose ∈ (Close ch conn sql).1 ↔ ch = none) ∧
      (Action.sqlClose ∈ (Close ch conn sql).1 ↔ ch = none ∧ conn = none) ∧
      (Close ch conn sql).2 = firstError [ch, conn, sql] ∧
      ((Close ch conn sql).2 = none ↔ ch = none ∧ conn = none ∧ sql = none) := by
  cases ch <;> cases conn <;> cases sql <;> simp [Close, firstError, List.prefix_cons_inj]

/-! ## Construction -/

/-- C7, the code at a failing input: when the queue connects and the SQL
connection fails, `makeRabbitMQ` returns that error and the watchdog goroutine
has been started (before the SQL connection was tried). -/
theorem makeRabbitMQ_sql_failure_after_watchdog (mqUrl sqlUrl e : String) :
    (makeRabbitMQ mqUrl sqlUrl queueUp (some e)).2 = some e ∧
      Action.goWatchdog ∈ (makeRabbitMQ mqUrl sqlUrl queueUp (some e)).1 ∧
      (makeRabbitMQ mqUrl sqlUrl queueUp (some e)).1 =
        [.withCancel, .connectQueue, .dial mqUrl, .channel, .confirm false, .qos 1 0 true,
          .consume "magnetico" "storage" false false false false, .goWatchdog,
          .connectSqlDB sqlUrl] := by
  simp [makeRabbitMQ, connectQueue, queueUp, statusListen, setConsumeQos]

/-- The sibling path: when the queue connection fails, `makeRabbitMQ` returns
that error and the watchdog has not been started. -/
theorem makeRabbitMQ_queue_failure_starts_nothing (mqUrl sqlUrl : String)
    (queue : QueueOutcome) (sql : Option String) (h : (connectQueue mqUrl queue).2 ≠ none) :
    (makeRabbitMQ mqUrl sqlUrl queue sql).2 = (connectQueue mqUrl queue).2 ∧
      Action.goWatchdog ∉ (makeRabbitMQ mqUrl sqlUrl queue sql).1 := by
  unfold makeRabbitMQ connectQueue at *
  cases hd : queue.dial <;> cases hc : queue.channel <;> cases hf : queue.confirm <;>
    cases hq : queue.qos <;> cases hs : queue.consume <;> simp_all

theorem makeRabbitMQ_queue_failure_starts_nothing_witness :
    (connectQueue "amqp://localhost" { queueUp with dial := some "connection refused" }).2 ≠
        none ∧
      (makeRabbitMQ "amqp://localhost" "postgres://localhost"
        { queueUp with dial := some "connection refused" } none).2 =
          some "connection refused" ∧
      Action.goWatchdog ∉ (makeRabbitMQ "amqp://localhost" "postgres://localhost"
        { queueUp with dial := some "connection refused" } none).1 :=
  ⟨by decide,
    makeRabbitMQ_queue_failure_starts_nothing "amqp://localhost" "postgres://localhost"
      { queueUp with dial := some "connection refused" } none (by decide)⟩

/-! ## The watchdog -/

/-- What one tick of the watchdog does, for every tick: `connectQueue` is called
once when the channel or the connection is closed and not at all otherwise;
the failure message is logged whenever one of them is closed, whatever the
attempt returns; the success message is logged exactly when one of them is
closed and the attempt returns no error; the heartbeat is logged exactly when
both are open. -/
theorem statusListenTick_spec (mqUrl : String) (t : Tick) :
    (statusListenTick mqUrl t).count Action.connectQueue =
        (if t.chClosed || t.connClosed then 1 else 0) ∧
      (Action.logReconnectFailed ∈ statusListenTick mqUrl t ↔
        (t.chClosed || t.connClosed) = true) ∧
      (Action.logReconnected ∈ statusListenTick mqUrl t ↔
        (t.chClosed || t.connClosed) = true ∧ (connectQueue mqUrl t.reconnect).2 = none) ∧
      (Action.logOnline ∈ statusListenTick mqUrl t ↔ (t.chClosed || t.connClosed) = false) := by
  unfold statusListenTick connectQueue
  cases t.chClosed <;> cases t.connClosed <;> cases hd : t.reconnect.dial <;>
    cases hc : t.reconnect.channel <;> cases hf : t.reconnect.confirm <;>
    cases hq : t.reconnect.qos <;> cases hs : t.reconnect.consume <;>
    simp [List.count_cons]

/-- C8, the code at a failing input: on a tick that finds the channel closed
and whose reconnection succeeds, the reconnection-failure message is logged
(before `connectQueue` is called) and then the success message. -/
theorem statusListenTick_logs_failure_before_success (mqUrl : String) :
    (connectQueue mqUrl queueUp).2 = none ∧
      statusListenTick mqUrl { chClosed := true, connClosed := false, reconnect := queueUp } =
        [.lock, .logReconnectFailed, .connectQueue, .dial mqUrl, .channel, .confirm false,
          .qos 1 0 true, .consume "magnetico" "storage" false false false false,
          .logReconnected, .unlock] := by
  simp [statusListenTick, connectQueue, queueUp, setConsumeQos]


/-! ## Mutual exclusion of the consumption loop and the watchdog -/

theorem bracketed_append (a b : List Action) (inside : Bool)
    (ha : bracketed inside a = true) (hb : bracketed false b = true) :
    bracketed inside (a ++ b) = true := by
  induction a generalizing inside with
  | nil =>
    cases inside
    · simpa using hb
    · simp [bracketed] at ha
  | cons x rest ih =>
    by_cases h1 : x = .lock
    · subst h1
      simp only [List.cons_append, bracketed, if_true, Bool.and_eq_true] at ha ⊢
      exact ⟨ha.1, ih true ha.2⟩
    · by_cases h2 : x = .unlock
      · subst h2
        simp only [List.cons_append, bracketed, if_true, reduceCtorEq, if_false,
          Bool.and_eq_true] at ha ⊢
        exact ⟨ha.1, ih false ha.2⟩
      · simp only [List.cons_append, bracketed, h1, h2, if_false, Bool.and_eq_true] at ha ⊢
        exact ⟨ha.1, ih inside ha.2⟩

theorem bracketed_processDelivery {σ : Type} (env : Env σ) (s : LoopState σ) (xp : Delivery) :
    bracketed false (processDelivery env s xp).2 = true := by
  cases hb : xp.body with
  | none => simp [processDelivery, hb, bracketed]
  | some data =>
    cases hr : (jsonUnmarshal env data s.torrentInfo).2 with
    | some e => simp [processDelivery, hb, hr, bracketed]
    | none =>
      cases hp : (env.addNewTorrent s.db
          (stringBytes (jsonUnmarshal env data s.torrentInfo).1.infoHash)
          (jsonUnmarshal env data s.torrentInfo).1.name
          (jsonUnmarshal env data s.torrentInfo).1.files).2 with
      | some e => simp [processDelivery, hb, hr, hp, bracketed]
      | none => cases hk : xp.ack false <;> simp [processDelivery, hb, hr, hp, hk, bracketed]

theorem bracketed_handlerLoop {σ : Type} (env : Env σ) (wakes : List (Wake Delivery))
    (s : LoopState σ) : bracketed false (handlerLoop env s wakes).2 = true := by
  induction wakes generalizing s with
  | nil => simp [handlerLoop, bracketed]
  | cons w rest ih =>
    cases w with
    | stop => simp [handlerLoop, bracketed]
    | recv xp =>
      simp only [handlerLoop]
      exact bracketed_append _ _ false (bracketed_processDelivery env s xp) (ih _)

theorem bracketed_statusListenTick (mqUrl : String) (t : Tick) :
    bracketed false (statusListenTick mqUrl t) = true := by
  unfold statusListenTick connectQueue
  split
  · cases t.reconnect.dial <;> cases t.reconnect.channel <;> cases t.reconnect.confirm <;>
      cases t.reconnect.qos <;> cases t.reconnect.consume <;> simp [bracketed]
  · simp [bracketed]

theorem bracketed_statusListenLoop (mqUrl : String) (ticks : List (Wake Tick)) :
    bracketed false (statusListenLoop mqUrl ticks) = true := by
  induction ticks with
  | nil => simp [statusListenLoop, bracketed]
  | cons w rest ih =>
    cases w with
    | stop => simp [statusListenLoop, bracketed]
    | recv t =>
      simp only [statusListenLoop]
      exact bracketed_append _ _ false (bracketed_statusListenTick mqUrl t) ih

theorem Thread.step_spec (th th2 : Thread) (locked l2 : Bool)
    (hb : bracketed (holding th.done) th.todo = true)
    (hs : th.step locked = some (th2, l2)) :
    bracketed (holding th2.done) th2.todo = true ∧
      ((holding th.done = false ∧ locked = false ∧ l2 = true ∧ holding th2.done = true) ∨
        (holding th.done = true ∧ holding th2.done = true ∧ l2 = locked) ∨
        (holding th.done = true ∧ holding th2.done = false ∧ locked = true ∧ l2 = false)) := by
  obtain ⟨done, todo⟩ := th
  cases todo with
  | nil => simp [Thread.step] at hs
  | cons a rest =>
    by_cases h1 : a = .lock
    · subst h1
      cases locked with
      | true => simp [Thread.step] at hs
      | false =>
        simp only [Thread.step, if_true, Bool.false_eq_true, if_false, Option.some.injEq,
          Prod.mk.injEq] at hs
        obtain ⟨rfl, rfl⟩ := hs
        simp only [bracketed, if_true, Bool.and_eq_true, Bool.not_eq_true'] at hb
        simp [holding, hb.1, hb.2]
    · by_cases h2 : a = .unlock
      · subst h2
        cases locked with
        | false => simp [Thread.step] at hs
        | true =>
          simp only [Thread.step, reduceCtorEq, if_false, if_true, Option.some.injEq,
            Prod.mk.injEq] at hs
          obtain ⟨rfl, rfl⟩ := hs
          simp only [bracketed, reduceCtorEq, if_false, if_true, Bool.and_eq_true] at hb
          simp [holding, hb.1, hb.2]
      · simp only [Thread.step, h1, h2, if_false, Option.some.injEq, Prod.mk.injEq] at hs
        obtain ⟨rfl, rfl⟩ := hs
        simp only [bracketed, h1, h2, if_false, Bool.and_eq_true] at hb
        have hb2 := hb.2
        rw [hb.1] at hb2
        simp [holding, h1, h2, hb.1, hb2]

theorem Sys.Inv_step (s s2 : Sys) (t : Task) (hi : s.Inv) (hs : s.step t = some s2) :
    s2.Inv := by
  obtain ⟨hc, hw, hl, hx⟩ := hi
  cases t with
  | consumer =>
    simp only [Sys.step] at hs
    cases hth : s.consumer.step s.locked with
    | none => simp [hth] at hs
    | some r =>
      obtain ⟨th2, l2⟩ := r
      simp only [hth, Option.some.injEq] at hs
      subst hs
      obtain ⟨hb2, hcase⟩ := Thread.step_spec s.consumer th2 s.locked l2 hc hth
      refine ⟨hb2, hw, ?_, ?_⟩
      · rcases hcase with ⟨h0, h1, h2, h3⟩ | ⟨h0, h1, h2⟩ | ⟨h0, h1, h2, h3⟩
        · simp_all
        · simp_all
        · simp_all
      · rcases hcase with ⟨h0, h1, h2, h3⟩ | ⟨h0, h1, h2⟩ | ⟨h0, h1, h2, h3⟩
        · simp_all
        · simp_all
        · simp_all
  | watchdog =>
    simp only [Sys.step] at hs
    cases hth : s.watchdog.step s.locked with
    | none => simp [hth] at hs
    | some r =>
      obtain ⟨th2, l2⟩ := r
      simp only [hth, Option.some.injEq] at hs
      subst hs
      obtain ⟨hb2, hcase⟩ := Thread.step_spec s.watchdog th2 s.locked l2 hw hth
      refine ⟨hc, hb2, ?_, ?_⟩
      · rcases hcase with ⟨h0, h1, h2, h3⟩ | ⟨h0, h1, h2⟩ | ⟨h0, h1, h2, h3⟩
        · simp_all
        · simp_all
        · simp_all
      · rcases hcase with ⟨h0, h1, h2, h3⟩ | ⟨h0, h1, h2⟩ | ⟨h0, h1, h2, h3⟩
        · simp_all
        · simp_all
        · simp_all

theorem Sys.Inv_run (sched : List Task) (s s2 : Sys) (hi : s.Inv)
    (hr : s.run sched = some s2) : s2.Inv := by
  induction sched generalizing s with
  | nil =>
    simp only [Sys.run, Option.some.injEq] at hr
    exact hr ▸ hi
  | cons t rest ih =>
    simp only [Sys.run] at hr
    cases hst : s.step t with
    | none => simp [hst] at hr
    | some s1 =>
      simp only [hst] at hr
      exact ih s1 (Sys.Inv_step s s1 t hi hst) hr

theorem Sys.Inv_start {σ : Type} (env : Env σ) (db : σ) (wakes : List (Wake Delivery))
    (mqUrl : String) (ticks : List (Wake Tick)) :
    (Sys.start env db wakes mqUrl ticks).Inv :=
  ⟨bracketed_handlerLoop env wakes _, bracketed_statusListenLoop mqUrl ticks, rfl, rfl⟩

theorem bracketed_next_held (inside : Bool) (a : Action) (rest : List Action)
    (hb : bracketed inside (a :: rest) = true) (ha : a ≠ .lock) : inside = true := by
  by_cases h2 : a = .unlock
  · subst h2
    simp only [bracketed, reduceCtorEq, if_false, if_true, Bool.and_eq_true] at hb
    exact hb.1
  · simp only [bracketed, ha, h2, if_false, Bool.and_eq_true] at hb
    exact hb.1

theorem processDelivery_locks_once {σ : Type} (env : Env σ) (s : LoopState σ) (xp : Delivery) :
    (processDelivery env s xp).2.head? = some Action.lock ∧
      (processDelivery env s xp).2.getLast? = some Action.unlock ∧
      (processDelivery env s xp).2.count Action.lock = 1 ∧
      (processDelivery env s xp).2.count Action.unlock = 1 := by
  cases hb : xp.body with
  | none => simp [processDelivery, hb, List.count_cons]
  | some data =>
    cases hr : (jsonUnmarshal env data s.torrentInfo).2 with
    | some e => simp [processDelivery, hb, hr, List.count_cons]
    | none =>
      cases hp : (env.addNewTorrent s.db
          (stringBytes (jsonUnmarshal env data s.torrentInfo).1.infoHash)
          (jsonUnmarshal env data s.torrentInfo).1.name
          (jsonUnmarshal env data s.torrentInfo).1.files).2 with
      | some e => simp [processDelivery, hb, hr, hp, List.count_cons]
      | none =>
        cases hk : xp.ack false <;> simp [processDelivery, hb, hr, hp, hk, List.count_cons]

theorem statusListenTick_locks_once (mqUrl : String) (t : Tick) :
    (statusListenTick mqUrl t).head? = some Action.lock ∧
      (statusListenTick mqUrl t).getLast? = some Action.unlock ∧
      (statusListenTick mqUrl t).count Action.lock = 1 ∧
      (statusListenTick mqUrl t).count Action.unlock = 1 := by
  unfold statusListenTick connectQueue
  split
  · cases t.reconnect.dial <;> cases t.reconnect.channel <;> cases t.reconnect.confirm <;>
      cases t.reconnect.qos <;> cases t.reconnect.consume <;> simp [List.count_cons]
  · simp [List.count_cons]

/-- C9: in every interleaving of `handlerTorrent` and the watchdog of
`statusListen` over the shared mutex, the two are never both between `Lock()`
and `Unlock()`; whenever the consumer is about to perform a step of processing
a delivery it holds the lock and the watchdog does not, and whenever the
watchdog is about to perform a step of `connectQueue` it holds the lock and the
consumer does not; every pass through the body of either loop starts with
`Lock()`, ends with `Unlock()` and contains each exactly once. -/
theorem handlerTorrent_statusListen_exclusive {σ : Type} (env : Env σ) (db : σ)
    (wakes : List (Wake Delivery)) (mqUrl : String) (ticks : List (Wake Tick))
    (sched : List Task) (s : Sys)
    (hrun : (Sys.start env db wakes mqUrl ticks).run sched = some s) :
    (holding s.consumer.done && holding s.watchdog.done) = false ∧
      (∀ a rest, s.consumer.todo = a :: rest → a.isProcessing = true →
        holding s.consumer.done = true ∧ holding s.watchdog.done = false) ∧
      (∀ a rest, s.watchdog.todo = a :: rest → a.isReconnect = true →
        holding s.watchdog.done = true ∧ holding s.consumer.done = false) ∧
      (∀ (st : LoopState σ) (xp : Delivery),
        (processDelivery env st xp).2.head? = some Action.lock ∧
          (processDelivery env st xp).2.getLast? = some Action.unlock ∧
          (processDelivery env st xp).2.count Action.lock = 1 ∧
          (processDelivery env st xp).2.count Action.unlock = 1) ∧
      (∀ t : Tick,
        (statusListenTick mqUrl t).head? = some Action.lock ∧
          (statusListenTick mqUrl t).getLast? = some Action.unlock ∧
          (statusListenTick mqUrl t).count Action.lock = 1 ∧
          (statusListenTick mqUrl t).count Action.unlock = 1) := by
  obtain ⟨hc, hw, _, hx⟩ := Sys.Inv_run sched _ s (Sys.Inv_start env db wakes mqUrl ticks) hrun
  refine ⟨hx, ?_, ?_, processDelivery_locks_once env, statusListenTick_locks_once mqUrl⟩
  · intro a rest htodo ha
    rw [htodo] at hc
    have hne : a ≠ .lock := by
      intro h
      subst h
      simp [Action.isProcessing] at ha
    have hheld := bracketed_next_held _ a rest hc hne
    refine ⟨hheld, ?_⟩
    simpa [hheld] using hx
  · intro a rest htodo ha
    rw [htodo] at hw
    have hne : a ≠ .lock := by
      intro h
      subst h
      simp [Action.isReconnect] at ha
    have hheld := bracketed_next_held _ a rest hw hne
    refine ⟨hheld, ?_⟩
    simpa [hheld] using hx

theorem handlerTorrent_statusListen_exclusive_witness :
    (Sys.start sampleEnv true [.recv (deliveryOf (some bodyFull))] "amqp://localhost"
        [.recv tickClosed]).run [.consumer, .consumer, .consumer] = some sampleMid ∧
      (holding sampleMid.consumer.done && holding sampleMid.watchdog.done) = false ∧
      holding sampleMid.consumer.done = true ∧
      sampleMid.step .watchdog = none :=
  ⟨by decide,
    (handlerTorrent_statusListen_exclusive sampleEnv true [.recv (deliveryOf (some bodyFull))]
      "amqp://localhost" [.recv tickClosed] [.consumer, .consumer, .consumer] sampleMid
      (by decide)).1,
    by decide, by decide⟩

end Storage

namespace Web

/-! ## The torrents API handler -/

theorem wroteBadRequest_respond {F R : Type} (env : Env F R) (query : String) (epoch : Int)
    (orderBy : OrderingCriteria) (ascending : Bool) (limit : Nat)
    (lastOrderedValue : Option F) (lastID : Option Nat) :
    wroteBadRequest (respond env query epoch orderBy ascending limit lastOrderedValue lastID) =
      false := by
  unfold respond
  cases env.queryTorrents query epoch orderBy ascending limit lastOrderedValue lastID with
  | error e => simp [wroteBadRequest, StatusBadRequest, StatusInternalServerError]
  | ok t =>
    cases hk : env.encode t <;> simp [hk, wroteBadRequest]

theorem afterOrderBy_bad_request_ends {F R : Type} (env : Env F R) (r : Request)
    (query : String) (epoch : Int) (orderBy : OrderingCriteria)
    (h : wroteBadRequest (afterOrderBy env r query epoch orderBy) = true) :
    ∃ msg, afterOrderBy env r query epoch orderBy = [.httpError msg StatusBadRequest] := by
  unfold afterOrderBy at h ⊢
  split
  · exact ⟨_, rfl⟩
  · split
    · exact ⟨_, rfl⟩
    · split
      · exact ⟨_, rfl⟩
      · split
        · exact ⟨_, rfl⟩
        · rename_i h1 _ _ h2 _ _ h3 _ _ h4
          simp only [h1, h2, h3, h4, wroteBadRequest_respond] at h
          exact absurd h (by simp)

/-- The validation paths other than the unknown `orderBy` do end the request:
when `orderBy` is absent or known to `parseOrderBy` and the handler writes a
400 error, that error is the only thing the handler does. -/
theorem apiTorrents_bad_request_ends {F R : Type} (env : Env F R) (r : Request)
    (hob : r.form.Get "orderBy" = "" ∨ (parseOrderBy (r.form.Get "orderBy")).2 = none)
    (h : wroteBadRequest (apiTorrents env r) = true) :
    ∃ msg, apiTorrents env r = [.httpError msg StatusBadRequest] ∧
      queryCalls (apiTorrents env r) = 0 := by
  have key : ∃ msg, apiTorrents env r = [.httpError msg StatusBadRequest] := by
    unfold apiTorrents at h ⊢
    simp only at h ⊢
    split
    · exact ⟨_, rfl⟩
    · rename_i hq
      simp only [hq, if_false] at h
      split
      · exact ⟨_, rfl⟩
      · rename_i hpf
        simp only [hpf] at h
        split
        · exact ⟨_, rfl⟩
        · rename_i _ epoch hep
          simp only [hep] at h
          by_cases ho : r.form.Get "orderBy" = ""
          · simp only [ho, if_true] at h ⊢
            by_cases hqr : r.form.Get "query" = ""
            · simp only [hqr, if_true] at h ⊢
              exact afterOrderBy_bad_request_ends env r _ _ _ h
            · simp only [hqr, if_false] at h ⊢
              exact afterOrderBy_bad_request_ends env r _ _ _ h
          · simp only [ho, if_false] at h ⊢
            have hok : (parseOrderBy (r.form.Get "orderBy")).2 = none := by
              rcases hob with hob | hob
              · exact absurd hob ho
              · exact hob
            cases hp : parseOrderBy (r.form.Get "orderBy") with
            | mk c e =>
              rw [hp] at hok
              simp only at hok
              subst hok
              simp only [hp] at h ⊢
              exact afterOrderBy_bad_request_ends env r _ _ _ h
  obtain ⟨msg, hmsg⟩ := key
  exact ⟨msg, hmsg, by rw [hmsg]; rfl⟩

theorem apiTorrents_bad_request_ends_witness :
    (badLimit.form.Get "orderBy" = "" ∨ (parseOrderBy (badLimit.form.Get "orderBy")).2 = none) ∧
      wroteBadRequest (apiTorrents sampleEnv badLimit) = true ∧
      ∃ msg, apiTorrents sampleEnv badLimit = [.httpError msg StatusBadRequest] ∧
        queryCalls (apiTorrents sampleEnv badLimit) = 0 :=
  ⟨Or.inl (by decide), by decide,
    apiTorrents_bad_request_ends sampleEnv badLimit (Or.inl (by decide)) (by decide)⟩


/-- C10, the code at a failing input: for a request whose only parameter is
`orderBy=BOGUS` the handler writes the 400 error for the unknown `orderBy`,
does not return, and goes on to call `database.QueryTorrents` (ordered by
discovery date) and to write a second response. -/
theorem apiTorrents_unknown_orderBy_continues {F R : Type} (env : Env F R) :
    apiTorrents env bogusOrderBy =
        .httpError "error while parsing the URL: unknown orderBy string: BOGUS" 400 ::
          respond env "" env.now .ByDiscoveredOn true 20 none none ∧
      wroteBadRequest (apiTorrents env bogusOrderBy) = true ∧
      queryCalls (apiTorrents env bogusOrderBy) = 1 ∧
      2 < (apiTorrents env bogusOrderBy).length := by
  have h : apiTorrents env bogusOrderBy =
      .httpError "error while parsing the URL: unknown orderBy string: BOGUS" 400 ::
        respond env "" env.now .ByDiscoveredOn true 20 none none := by
    simp [apiTorrents, bogusOrderBy, Values.Get, Values.Has, parseOrderBy, afterOrderBy,
      StatusBadRequest]
  rw [h]
  refine ⟨rfl, ?_, ?_, ?_⟩
  · simp [wroteBadRequest, StatusBadRequest]
  · unfold respond
    cases env.queryTorrents "" env.now .ByDiscoveredOn true 20 none none with
    | error e => simp [queryCalls]
    | ok t => cases hk : env.encode t <;> simp [hk, queryCalls]
  · unfold respond
    cases env.queryTorrents "" env.now .ByDiscoveredOn true 20 none none with
    | error e => simp
    | ok t => cases hk : env.encode t <;> simp [hk]

end Web
